import Mathlib

/-!
Verification of the FFcuesplitter job-execution and progress-observation
subsystem (src/ffcuesplitter/ffmpeg.py, src/ffcuesplitter/ffprobe.py,
src/ffcuesplitter/main.py) against its natural-language specification.

The Python code is shallowly embedded: pure string building becomes Lean
functions over `String` / `List Char`; the stateful `FFProbe` object becomes
explicit state passing; process interaction is modelled by passing in the
child's observable behaviour (output lines, exit code, spawn success) and
recording the side effects the code would perform as an explicit trace.
Exceptions become `Except` / `Option` values carrying the Python exception
class name and message.
-/

/-! ## Character-list utilities (embedding of the Python string primitives) -/

/-- Splitting a character list at every occurrence of the separator `c`,
exactly like Python `str.split(c)` for a one-character separator:
`"a=b=".split('=') == ['a','b','']`. -/
def splitOnChar (c : Char) : List Char → List (List Char)
  | [] => [[]]
  | x :: xs =>
    let r := splitOnChar c xs
    if x = c then [] :: r
    else
      match r with
      | [] => [[x]]
      | y :: ys => (x :: y) :: ys

/-- Boolean prefix test on character lists. -/
def isPrefCL : List Char → List Char → Bool
  | [], _ => true
  | _ :: _, [] => false
  | a :: as, b :: bs => a == b && isPrefCL as bs

/-- Boolean contiguous-substring test on character lists; `isInfxCL pat s`
is the embedding of Python `pat in s` for strings. -/
def isInfxCL (pat : List Char) : List Char → Bool
  | [] => pat.isEmpty
  | b :: bs => isPrefCL pat (b :: bs) || isInfxCL pat bs

/-- Embedding of the Python substring test `pat in s`. -/
def containsStr (pat s : String) : Bool :=
  isInfxCL pat.data s.data

/-- Fuel-driven digit accumulator for decimal rendering of a natural number;
fuel `n+1` always suffices. -/
def natReprAux : Nat → Nat → List Char → List Char
  | 0, _, acc => acc
  | fuel + 1, n, acc =>
    let c := Char.ofNat (48 + n % 10)
    if n < 10 then c :: acc
    else natReprAux fuel (n / 10) (c :: acc)

/-- Decimal rendering of a natural number, the embedding of Python `str(n)`
for non-negative `n`. -/
def natReprStr (n : Nat) : String :=
  String.mk (natReprAux (n + 1) n [])

/-- Embedding of Python `str.rjust(w, c)` on character lists. -/
def rjustCL (w : Nat) (c : Char) (s : List Char) : List Char :=
  List.replicate (w - s.length) c ++ s

/-- Drop trailing `'0'` characters (used for decimal rendering of floats). -/
def dropTrailZeros (s : List Char) : List Char :=
  (s.reverse.dropWhile (fun c => c == '0')).reverse

/-- Rounding of the fraction `a / b` (with `b > 0`) to the nearest natural
number with ties to even, the embedding of Python `round` (banker's
rounding) on non-negative values. -/
def roundHalfEvenDivN (a b : Nat) : Nat :=
  let q := a / b
  let r := a % b
  if 2 * r < b then q
  else if 2 * r > b then q + 1
  else if q % 2 = 0 then q else q + 1

/-- Rounding of the fraction `a / b` (with `b > 0`) to the nearest integer
with ties to even, the embedding of Python `round` for a possibly negative
numerator. -/
def roundHalfEvenZ (a b : Int) : Int :=
  let q := a.ediv b
  let r := a.emod b
  if 2 * r < b then q
  else if 2 * r > b then q + 1
  else if q % 2 = 0 then q else q + 1

/-- Digit test for decimal parsing. -/
def isDigitCh (c : Char) : Bool :=
  '0' ≤ c && c ≤ '9'

/-- Value of a run of decimal digits. -/
def digitsVal : List Char → Nat → Option Nat
  | [], acc => some acc
  | c :: cs, acc =>
    if isDigitCh c then digitsVal cs (acc * 10 + (c.toNat - 48))
    else none

/-- Embedding of Python `int(s)` on a decimal string: optional surrounding
whitespace, optional sign, at least one digit; `none` models `ValueError`. -/
def pyInt (s : String) : Option Int :=
  let t := (s.data.dropWhile (fun c => c == ' ' || c == '\n' || c == '\t'
             || c == '\r')).reverse
  let t := (t.dropWhile (fun c => c == ' ' || c == '\n' || c == '\t'
             || c == '\r')).reverse
  match t with
  | [] => none
  | '-' :: rest =>
    match rest with
    | [] => none
    | _ => (digitsVal rest 0).map (fun n => -(n : Int))
  | '+' :: rest =>
    match rest with
    | [] => none
    | _ => (digitsVal rest 0).map (fun n => (n : Int))
  | _ => (digitsVal t 0).map (fun n => (n : Int))

/-- Embedding of posix `os.path.join(a, b)` for two components. -/
def osPathJoin (a b : String) : String :=
  if isPrefCL ['/'] b.data then b
  else if a = "" then b
  else if a.data.getLast? = some '/' then a ++ b
  else a ++ "/" ++ b

/-- Concatenation of a list of lists in order (the traversal order of the
Python nested loop `for xs in lists: for x in xs`). -/
def concatAll : List (List α) → List α :=
  List.foldr (fun l r => l ++ r) []

/-! ## Helper lemmas about the string utilities -/

theorem strData_append (a b : String) : (a ++ b).data = a.data ++ b.data := by
  cases a
  cases b
  rfl

theorem isPrefCL_append_self (p t : List Char) : isPrefCL p (p ++ t) = true := by
  induction p with
  | nil => rfl
  | cons a as ih => simp [isPrefCL, ih]

theorem isInfxCL_nil_pat (l : List Char) : isInfxCL [] l = true := by
  induction l with
  | nil => rfl
  | cons b bs ih => simp [isInfxCL, isPrefCL]

theorem isInfxCL_of_pref (p s : List Char) (h : isPrefCL p s = true) :
    isInfxCL p s = true := by
  cases s with
  | nil =>
    cases p with
    | nil => rfl
    | cons a as => simp [isPrefCL] at h
  | cons b bs => simp [isInfxCL, h]

theorem isInfxCL_append_left (p pre rest : List Char)
    (h : isInfxCL p rest = true) : isInfxCL p (pre ++ rest) = true := by
  induction pre with
  | nil => simpa using h
  | cons x xs ih => simp [isInfxCL, ih]

theorem isInfxCL_sandwich (p a b : List Char) :
    isInfxCL p (a ++ (p ++ b)) = true := by
  apply isInfxCL_append_left
  exact isInfxCL_of_pref _ _ (isPrefCL_append_self p b)

/-- Mismatch witness: some position where the pattern and the fixed head of
the target disagree. -/
def zipMismatch (pat fixed : List Char) : Bool :=
  (pat.zip fixed).any (fun p => p.1 != p.2)

theorem isPrefCL_false_of_mismatch (pat fixed : List Char)
    (h : zipMismatch pat fixed = true) (var : List Char) :
    isPrefCL pat (fixed ++ var) = false := by
  induction pat generalizing fixed with
  | nil => simp [zipMismatch] at h
  | cons a as ih =>
    cases fixed with
    | nil => simp [zipMismatch] at h
    | cons b bs =>
      simp only [zipMismatch, List.zip_cons_cons, List.any_cons] at h
      rcases Bool.or_eq_true_iff.mp h with h1 | h2
      · simp only [bne_iff_ne, ne_eq] at h1
        simp [isPrefCL, List.cons_append, h1]
      · simp [List.cons_append, isPrefCL, ih bs h2]

/-! ## Embedding of `ffcuesplitter/ffmpeg.py` (class FFMpeg) -/

/-- The keyword-argument configuration threaded through `FFMpeg`
(`self.kwargs`): the fields this subsystem reads. -/
structure Kwargs where
  ffmpeg_url : String
  ffmpeg_loglevel : String
  progress_meter : String
  format : String
  ffmpeg_add_params : String
  tempdir : String
  logtofile : String
  dry : Bool

/-- One audio-track descriptor dictionary. `START`/`END` are in the CUE
frame-derived sample unit (`END` optional: `if 'END' in track`);
`TRACK_NUM` is the track number; `DURATION` the track duration in seconds.
The metadata fields are `Option String` because the code reads them with
`track.get(key, '')` (absent key allowed) except for `TITLE`, which line
102 also reads with direct indexing `track["TITLE"]`. -/
structure Track where
  FILE : String
  START : Nat
  END : Option Nat
  TRACK_NUM : Nat
  DURATION : Rat
  ARTIST : Option String := none
  ALBUM : Option String := none
  TITLE : Option String := none
  GENRE : Option String := none
  DATE : Option String := none
  COMMENT : Option String := none
  DISCID : Option String := none

/-- The `FFMpeg.DATACODECS` class dictionary as a lookup function;
`none` models a `KeyError` on `DATACODECS[format]`. -/
def DATACODECS (f : String) : Option String :=
  if f = "wav" then some "pcm_s16le -ar 44100"
  else if f = "flac" then some "flac -ar 44100"
  else if f = "ogg" then some "libvorbis -ar 44100"
  else if f = "mp3" then some "libmp3lame -ar 44100"
  else none

/-- The local `meters` dictionary of `ffmpeg_arguments` as a lookup
function; `none` models a `KeyError` on `meters[progress_meter]`. -/
def metersMap (m : String) : Option String :=
  if m = "mymet" then some "-stats -hide_banner -nostdin"
  else if m = "tqdm" then some "-progress pipe:1 -nostats -nostdin"
  else if m = "standard" then some ""
  else none

/-- The value `round(start / 44100, 6)` of line 94/96 expressed in
microseconds: the exact rational `start / 44100` rounded to 6 decimal
places with ties to even, scaled by `10^6`. (Python computes this through
a binary double; for the rounded 6-decimal values involved the double is
the nearest representation of the same decimal.) -/
def ffSecondsMicro (start : Nat) : Nat :=
  roundHalfEvenDivN (start * 1000000) 44100

/-- The same conversion as a rational number of seconds. -/
def ffSecondsQ (start : Nat) : Rat :=
  (ffSecondsMicro start : Rat) / 1000000

/-- Decimal rendering of a value of `ffSecondsMicro` the way the f-string
of line 94/96 renders the Python float `round(start / 44100, 6)`: integer
part, then `.`, then the fractional digits with trailing zeros removed but
at least one digit (`repr(1.0) == "1.0"`, `repr(0.5) == "0.5"`). This is
the shortest-round-trip rendering for these 6-decimal values. -/
def floatReprOfMicro (micro : Nat) : String :=
  let ip := micro / 1000000
  let fr := micro % 1000000
  let frDigits := rjustCL 6 '0' (natReprAux (fr + 1) fr [])
  let frTrim := dropTrailZeros frDigits
  String.mk (natReprAux (ip + 1) ip []
    ++ ('.' :: (if frTrim.isEmpty then ['0'] else frTrim)))

/-- The successive `cmd += ...` fragments of `ffmpeg_arguments`
(ffmpeg.py lines 90-103) for one track, given the already looked-up
`meter` string, `codec` string and `TITLE` value.  Joining the list in
order is exactly the `cmd` string the source builds. -/
def chunkList (kw : Kwargs) (t : Track) (total : Nat)
    (meter codec title : String) : List String :=
  ["\"" ++ (kw.ffmpeg_url ++ "\" "),
   " -loglevel " ++ kw.ffmpeg_loglevel,
   " " ++ meter,
   " -i \"" ++ (t.FILE ++ "\""),
   " -ss " ++ floatReprOfMicro (ffSecondsMicro t.START)]
  ++ (match t.END with
      | some e => [" -to " ++ floatReprOfMicro (ffSecondsMicro e)]
      | none => [])
  ++ [" -metadata ARTIST=\"" ++ (t.ARTIST.getD "" ++ "\""),
      " -metadata ALBUM=\"" ++ (t.ALBUM.getD "" ++ "\""),
      " -metadata TITLE=\"" ++ (t.TITLE.getD "" ++ "\""),
      " -metadata TRACK=\"" ++ (natReprStr t.TRACK_NUM ++ ("/"
        ++ (natReprStr total ++ "\""))),
      " -metadata GENRE=\"" ++ (t.GENRE.getD "" ++ "\""),
      " -metadata DATE=\"" ++ (t.DATE.getD "" ++ "\""),
      " -metadata COMMENT=\"" ++ (t.COMMENT.getD "" ++ "\""),
      " -metadata DISCID=\"" ++ (t.DISCID.getD "" ++ "\""),
      " -c:a " ++ codec,
      " " ++ kw.ffmpeg_add_params,
      " \"" ++ (osPathJoin kw.tempdir
        (String.mk (rjustCL 2 '0' (natReprAux (t.TRACK_NUM + 1) t.TRACK_NUM []))
         ++ (" - " ++ title)) ++ "\"")]

/-- The body of the `for track in self.audiotracks` loop of
`ffmpeg_arguments` for one track, as the list of `cmd +=` fragments.
Failures are the `KeyError`s the loop body can raise, in source
evaluation order: `meters[self.kwargs['progress_meter']]` (line 92), then
`DATACODECS[self.kwargs["format"]]` (line 99), then `track["TITLE"]`
(line 102). The error carries the Python exception class and its key. -/
def ffmpegTrackChunks (kw : Kwargs) (t : Track) (total : Nat) :
    Except (String × String) (List String) :=
  match metersMap kw.progress_meter with
  | none => .error ("KeyError", kw.progress_meter)
  | some meter =>
    match DATACODECS kw.format with
    | none => .error ("KeyError", kw.format)
    | some codec =>
      match t.TITLE with
      | none => .error ("KeyError", "TITLE")
      | some title => .ok (chunkList kw t total meter codec title)

/-- The complete `cmd` string for one track: the fragments joined in
order, exactly as the successive `cmd += ...` of the source produce it. -/
def ffmpegTrackCmd (kw : Kwargs) (t : Track) (total : Nat) :
    Except (String × String) String :=
  (ffmpegTrackChunks kw t total).map (fun l => String.join l)

/-- `FFMpeg.ffmpeg_arguments`: builds the per-track command strings and
the seconds list over the whole track list (`total` is
`len(self.audiotracks)`). -/
def ffmpeg_arguments (kw : Kwargs) (tracks : List Track) :
    Except (String × String) (List String × List Rat) :=
  let total := tracks.length
  tracks.foldr
    (fun t acc =>
      match ffmpegTrackCmd kw t total with
      | .error e => .error e
      | .ok cmd =>
        match acc with
        | .error e => .error e
        | .ok (args, secs) => .ok (cmd :: args, t.DURATION :: secs))
    (.ok ([], []))

/-- The `choices` list of the `-f` (`--format-type`) CLI option
(main.py lines 65-71). -/
def cliFormatChoices : List String :=
  ["wav", "wv", "flac", "mp3", "ogg", "m4a"]

/-! ## Embedding of the three progress-observation strategies -/

/-- One observable side effect of a processing strategy, in the order the
source performs them: `msgOut` is the `msg(cmd)` dry-run print, `openLog`
opens the log file for writing, `logWrite` writes to it, `spawn` starts
the child process, `progLine` is the Strategy A stdout progress line
(formatted by the external `utils.progress`, recorded here by its raw
input line), `progUpdate` is a Strategy B `progbar.update` call with its
increment. -/
inductive Effect where
  | msgOut (s : String)
  | openLog (p : String)
  | logWrite (s : String)
  | spawn (cmd : String)
  | progLine (line : String)
  | progUpdate (inc : Int)
deriving DecidableEq, Repr

/-- The observable outcome of running one strategy: the effect trace and
the exception it raises, if any (`(class, message)`). -/
structure StratOut where
  effects : List Effect
  err : Option (String × String)
deriving DecidableEq, Repr

/-- The failure message of `processing_with_mymet_progress` (lines
164-167) and `processing_with_tqdm_progress` (lines 212-216): both
interpolate the log file path and `proc.wait()` into the same f-string. -/
def failMsg (logtofile : String) (code : Nat) : String :=
  "ffmpeg FAILED: See log details: '" ++ logtofile
    ++ "'\nExit status: " ++ natReprStr code

/-- The loop body of `processing_with_tqdm_progress` (ffmpeg.py lines
204-210) over the child's stdout lines: a line containing `out_time_ms`
has its value after `=` parsed as an integer, divided by 1,000,000 and
rounded to whole seconds; the difference to the previous rounded value is
passed to `progbar.update`.  Returns the list of update increments, or
the Python exception the body raises on a malformed line (`IndexError`
from `output.split('=')[1]`, `ValueError` from `int(...)`). -/
def tqdmUpdates : List String → Int → Except (String × String) (List Int)
  | [], _ => .ok []
  | line :: rest, prev =>
    if containsStr "out_time_ms" line then
      match (splitOnChar '=' line.data)[1]? with
      | none => .error ("IndexError", "list index out of range")
      | some v =>
        match pyInt (String.mk v) with
        | none => .error ("ValueError", String.mk v)
        | some ms =>
          let s := roundHalfEvenZ ms 1000000
          match tqdmUpdates rest s with
          | .error e => .error e
          | .ok us => .ok ((s - prev) :: us)
    else tqdmUpdates rest prev

/-- The rounded whole-second values `s_processed` that the tqdm loop
computes, one per `out_time_ms` line, without the delta step. -/
def parsedSeconds : List String → Except (String × String) (List Int)
  | [] => .ok []
  | line :: rest =>
    if containsStr "out_time_ms" line then
      match (splitOnChar '=' line.data)[1]? with
      | none => .error ("IndexError", "list index out of range")
      | some v =>
        match pyInt (String.mk v) with
        | none => .error ("ValueError", String.mk v)
        | some ms =>
          match parsedSeconds rest with
          | .error e => .error e
          | .ok ss => .ok (roundHalfEvenZ ms 1000000 :: ss)
    else parsedSeconds rest

/-- Successive differences against a running previous value: the value
each `progbar.update` receives when the rounded seconds are `ss` and the
previous report was `prev`. -/
def diffsFrom (prev : Int) : List Int → List Int
  | [] => []
  | s :: rest => (s - prev) :: diffsFrom s rest

/-- `processing_with_mymet_progress` (lines 136-175), given the child's
stderr lines and exit code (spawn assumed to succeed; the `OSError`
branch is not exercised by the claims): logs every line verbatim, shows a
progress line for lines containing `time=`, and raises `FFMpegError`
naming the log path and exit code when the child exits non-zero. -/
def mymetStrat (kw : Kwargs) (cmd : String) (stderrLines : List String)
    (code : Nat) : StratOut :=
  { effects :=
      Effect.openLog kw.logtofile
        :: Effect.logWrite ("COMMAND: " ++ cmd ++ "\n\n")
        :: Effect.spawn cmd
        :: (stderrLines.flatMap (fun line =>
             Effect.logWrite line
               :: (if containsStr "time=" line then [Effect.progLine line]
                   else []))),
    err := if code = 0 then none
           else some ("FFMpegError", failMsg kw.logtofile code) }

/-- `processing_with_tqdm_progress` (lines 178-227), given the child's
stdout lines and exit code: stderr goes straight to the log, the stdout
loop produces `progbar.update` calls via `tqdmUpdates`, and a non-zero
exit raises `FFMpegError` with the same message as Strategy A.  A
malformed progress line raises its own exception instead. -/
def tqdmStrat (kw : Kwargs) (cmd : String) (stdoutLines : List String)
    (code : Nat) : StratOut :=
  match tqdmUpdates stdoutLines 0 with
  | .error e =>
    { effects := [Effect.openLog kw.logtofile,
                  Effect.logWrite ("\nCOMMAND: " ++ cmd),
                  Effect.spawn cmd],
      err := some e }
  | .ok us =>
    { effects := [Effect.openLog kw.logtofile,
                  Effect.logWrite ("\nCOMMAND: " ++ cmd),
                  Effect.spawn cmd] ++ us.map Effect.progUpdate,
      err := if code = 0 then none
             else some ("FFMpegError", failMsg kw.logtofile code) }

/-- The message of Python `subprocess.CalledProcessError` for a positive
exit code: `"Command '<cmd>' returned non-zero exit status <code>."`,
where `<cmd>` is the display form of the command object passed to
`subprocess.run`. -/
def calledProcErrStr (cmdRepr : String) (code : Nat) : String :=
  "Command '" ++ cmdRepr ++ "' returned non-zero exit status "
    ++ natReprStr code ++ "."

/-- `processing_with_standard_progress` (lines 230-251), given the
display form of the command and the exit code (spawn assumed to succeed):
writes only the invocation header to the log, runs the child with
`check=True`, and wraps the resulting `CalledProcessError` in
`FFMpegError` when the exit code is non-zero. -/
def standardStrat (kw : Kwargs) (cmdRepr : String) (code : Nat) :
    StratOut :=
  { effects := [Effect.openLog kw.logtofile,
                Effect.logWrite ("COMMAND: " ++ cmdRepr),
                Effect.spawn cmdRepr],
    err := if code = 0 then none
           else some ("FFMpegError",
                      "ffmpeg FAILED: " ++ calledProcErrStr cmdRepr code) }

/-- `FFMpeg.processing` (lines 110-133): dispatch on
`kwargs['progress_meter']`; in dry mode each branch prints the command
with `msg(cmd)` and returns before opening a log or spawning anything.
The child's stream contents and exit code are passed in as the observable
behaviour the strategies would consume.  (On non-Windows platforms the
dispatched command object is `shlex.split(arg)`; the trace records the
invocation by its display form `arg`.) -/
def processing (kw : Kwargs) (arg : String)
    (stdoutLines stderrLines : List String) (code : Nat) : StratOut :=
  if kw.progress_meter == "tqdm" then
    if kw.dry then { effects := [Effect.msgOut arg], err := none }
    else tqdmStrat kw arg stdoutLines code
  else if kw.progress_meter == "mymet" then
    if kw.dry then { effects := [Effect.msgOut arg], err := none }
    else mymetStrat kw arg stderrLines code
  else if kw.progress_meter == "standard" then
    if kw.dry then { effects := [Effect.msgOut arg], err := none }
    else standardStrat kw arg code
  else { effects := [], err := none }

/-! ## Embedding of `ffcuesplitter/ffprobe.py` (class FFProbe) -/

/-- The mutable attributes of an `FFProbe` object that the parser and the
accessors touch.  `fmt` stands for the source attribute `_format`. -/
structure FFProbeSt where
  mediastreams : List (List String)
  mediaformat : List (List String)
  video : List (List String)
  audio : List (List String)
  subtitle : List (List String)
  fmt : List (List String)
  datalines : List String
deriving DecidableEq, Repr

/-- One pass of `FFProbe.parser` (lines 234-252): fold over the report
lines with the marker pair `(openM, closeM)`.  `re.match(marker, line)`
anchors at the start of the line, so a marker test is a prefix test.
Returns the accumulated record list and the final `datalines`. -/
def passFold (openM closeM : String) :
    List String → List (List String) → List String →
    List (List String) × List String
  | [], acc, dl => (acc, dl)
  | s :: rest, acc, dl =>
    if isPrefCL openM.data s.data then passFold openM closeM rest acc []
    else if isPrefCL closeM.data s.data then
      passFold openM closeM rest (acc ++ [dl]) []
    else passFold openM closeM rest acc (dl ++ [s])

/-- `FFProbe.parser(output)` (lines 227-252) starting from the freshly
initialised attributes of `__init__`: split the report on newlines, run
the `[STREAM]` pass and then the `[FORMAT]` pass over the same line list,
the second pass continuing with the `datalines` the first left behind. -/
def parserFF (output : String) : FFProbeSt :=
  let probing := (splitOnChar '\n' output.data).map (fun l => String.mk l)
  let p1 := passFold "[STREAM]" "[/STREAM]" probing [] []
  let p2 := passFold "[FORMAT]" "[/FORMAT]" probing [] p1.2
  { mediastreams := p1.1, mediaformat := p2.1,
    video := [], audio := [], subtitle := [], fmt := [],
    datalines := p2.2 }

/-- `FFProbe.video_stream` (lines 256-264): appends every stream record
containing the exact line `codec_type=video` to `self.video` and returns
the accumulated list together with the updated object state. -/
def video_stream (st : FFProbeSt) : List (List String) × FFProbeSt :=
  let v := st.video
    ++ st.mediastreams.filter (fun ds => ds.contains "codec_type=video")
  (v, { st with video := v })

/-- `FFProbe.audio_stream` (lines 267-275), same shape for audio. -/
def audio_stream (st : FFProbeSt) : List (List String) × FFProbeSt :=
  let a := st.audio
    ++ st.mediastreams.filter (fun ds => ds.contains "codec_type=audio")
  (a, { st with audio := a })

/-- `FFProbe.subtitle_stream` (lines 278-286), same shape for subtitle. -/
def subtitle_stream (st : FFProbeSt) : List (List String) × FFProbeSt :=
  let s := st.subtitle
    ++ st.mediastreams.filter (fun ds => ds.contains "codec_type=subtitle")
  (s, { st with subtitle := s })

/-- `FFProbe.data_format(item)` (lines 289-303): first appends every
record of `self.mediaformat` to `self._format`; then, when `item` is
truthy, scans `self._format` in order for the first line containing
`item` and returns `line.split('=')[1]` (`Sum.inl`); indexing an
`'='`-free line raises `IndexError`; with no match, or a falsy `item`
(absent or empty), it returns the accumulated `self._format` list
(`Sum.inr`).  The updated object state is returned alongside. -/
def data_format (st : FFProbeSt) (item : Option String) :
    Except (String × String) (Sum String (List (List String))) × FFProbeSt :=
  let st2 := { st with fmt := st.fmt ++ st.mediaformat }
  let truthy := match item with
    | none => false
    | some s => s ≠ ""
  if truthy then
    match item with
    | none => (.ok (.inr st2.fmt), st2)
    | some key =>
      match (concatAll st2.fmt).find? (fun i => containsStr key i) with
      | some line =>
        match (splitOnChar '=' line.data)[1]? with
        | some v => (.ok (.inl (String.mk v)), st2)
        | none => (.error ("IndexError", "list index out of range"), st2)
      | none => (.ok (.inr st2.fmt), st2)
  else (.ok (.inr st2.fmt), st2)

/-- `k` successive calls of `video_stream` on the same object. -/
def callsVideo : Nat → FFProbeSt → FFProbeSt
  | 0, st => st
  | k + 1, st => callsVideo k (video_stream st).2

/-- `k` successive calls of `audio_stream` on the same object. -/
def callsAudio : Nat → FFProbeSt → FFProbeSt
  | 0, st => st
  | k + 1, st => callsAudio k (audio_stream st).2

/-- `k` successive calls of `subtitle_stream` on the same object. -/
def callsSubtitle : Nat → FFProbeSt → FFProbeSt
  | 0, st => st
  | k + 1, st => callsSubtitle k (subtitle_stream st).2

/-- `k` successive calls of `data_format(item=None)` on the same object. -/
def callsFmt : Nat → FFProbeSt → FFProbeSt
  | 0, st => st
  | k + 1, st => callsFmt k (data_format st none).2

/-- `FFProbe.__init__` (lines 209-224) after the command is built: the
child's observable behaviour is either a spawn failure with the `OSError`
text, or a triple `(stdout, stderr, returncode)`.  A spawn failure is
re-raised as `FFProbeError(excepterr)`; a non-zero exit raises
`FFProbeError('ffprobe FAILED: ' + stderr)`; otherwise the output is
parsed (`parse=True`) or stored raw for `custom_output`
(`parse=False`). -/
def probeInit (spawn : Except String (String × String × Nat))
    (parse : Bool) :
    Except (String × String) (Sum FFProbeSt String) :=
  match spawn with
  | .error osText => .error ("FFProbeError", osText)
  | .ok (out, err2, code) =>
    if code ≠ 0 then .error ("FFProbeError", "ffprobe FAILED: " ++ err2)
    else .ok (if parse then .inl (parserFF out) else .inr out)

/-- The exception class of the failure result, when there is one. -/
def errClassOf (r : Except (String × String) α) : Option String :=
  match r with
  | .error e => some e.1
  | .ok _ => none

/-! ## Lemmas about the command builder -/

/-- A fragment that begins the `-ss` flag (`cmd += f" -ss {...}"`). -/
def ssChunkP (c : String) : Bool :=
  isPrefCL " -ss ".data c.data

/-- A fragment that begins the `-to` flag (`cmd += f" -to {...}"`). -/
def toChunkP (c : String) : Bool :=
  isPrefCL " -to ".data c.data

theorem ssChunkP_false_lit (lit rest : String)
    (h : zipMismatch " -ss ".data lit.data = true) :
    ssChunkP (lit ++ rest) = false := by
  unfold ssChunkP
  rw [strData_append]
  exact isPrefCL_false_of_mismatch _ _ h _

theorem toChunkP_false_lit (lit rest : String)
    (h : zipMismatch " -to ".data lit.data = true) :
    toChunkP (lit ++ rest) = false := by
  unfold toChunkP
  rw [strData_append]
  exact isPrefCL_false_of_mismatch _ _ h _

theorem ssChunkP_true_head (rest : String) :
    ssChunkP (" -ss " ++ rest) = true := by
  unfold ssChunkP
  rw [strData_append]
  exact isPrefCL_append_self _ _

theorem toChunkP_true_head (rest : String) :
    toChunkP (" -to " ++ rest) = true := by
  unfold toChunkP
  rw [strData_append]
  exact isPrefCL_append_self _ _

theorem ffmpegTrackChunks_ok (kw : Kwargs) (t : Track) (total : Nat)
    (chunks : List String)
    (h : ffmpegTrackChunks kw t total = .ok chunks) :
    ∃ meter codec title,
      metersMap kw.progress_meter = some meter ∧
      DATACODECS kw.format = some codec ∧
      t.TITLE = some title ∧
      chunks = chunkList kw t total meter codec title := by
  unfold ffmpegTrackChunks at h
  cases hm : metersMap kw.progress_meter with
  | none => rw [hm] at h; exact absurd h (by simp)
  | some meter =>
    rw [hm] at h
    cases hc : DATACODECS kw.format with
    | none => rw [hc] at h; exact absurd h (by simp)
    | some codec =>
      rw [hc] at h
      cases ht : t.TITLE with
      | none => rw [ht] at h; exact absurd h (by simp)
      | some title =>
        rw [ht] at h
        refine ⟨meter, codec, title, rfl, rfl, rfl, ?_⟩
        injection h with h
        exact h.symm

theorem metersMap_mem (s m : String) (h : metersMap s = some m) :
    m = "-stats -hide_banner -nostdin"
    ∨ m = "-progress pipe:1 -nostats -nostdin"
    ∨ m = "" := by
  unfold metersMap at h
  split_ifs at h <;> simp_all

/-- Claim C4: for every valid TrackDescriptor, the argument string built
by `ffmpeg_arguments` contains exactly one `-ss` flag, and a `-to` flag
if and only if the descriptor has an `END` key.  A flag is formalised as
a `cmd +=` fragment beginning with the flag text; the side conditions say
only that the caller's free-form `ffmpeg_add_params` does not itself
start with an `-ss`/`-to` flag (if it did, the real command would indeed
gain a second flag). -/
theorem c4_ss_to_flags (kw : Kwargs) (t : Track) (total : Nat)
    (chunks : List String)
    (h : ffmpegTrackChunks kw t total = .ok chunks)
    (hss : ssChunkP (" " ++ kw.ffmpeg_add_params) = false)
    (hto : toChunkP (" " ++ kw.ffmpeg_add_params) = false) :
    chunks.countP ssChunkP = 1
    ∧ (chunks.any toChunkP = true ↔ t.END.isSome = true)
    ∧ ffmpegTrackCmd kw t total = .ok (String.join chunks) := by
  obtain ⟨meter, codec, title, hm, hc, ht, hch⟩ :=
    ffmpegTrackChunks_ok kw t total chunks h
  refine ⟨?_, ?_, ?_⟩
  case _ =>
    subst hch
    have e1 : ssChunkP ("\"" ++ (kw.ffmpeg_url ++ "\" ")) = false :=
      ssChunkP_false_lit _ _ (by decide)
    have e2 : ssChunkP (" -loglevel " ++ kw.ffmpeg_loglevel) = false :=
      ssChunkP_false_lit _ _ (by decide)
    have e3 : ssChunkP (" " ++ meter) = false := by
      rcases metersMap_mem _ _ hm with h3 | h3 | h3 <;> subst h3 <;> decide
    have e4 : ssChunkP (" -i \"" ++ (t.FILE ++ "\"")) = false :=
      ssChunkP_false_lit _ _ (by decide)
    have e5 : ssChunkP (" -ss " ++ floatReprOfMicro (ffSecondsMicro t.START))
        = true := ssChunkP_true_head _
    have e6 : ∀ r, ssChunkP (" -metadata ARTIST=\"" ++ r) = false :=
      fun r => ssChunkP_false_lit _ _ (by decide)
    have e7 : ∀ r, ssChunkP (" -metadata ALBUM=\"" ++ r) = false :=
      fun r => ssChunkP_false_lit _ _ (by decide)
    have e8 : ∀ r, ssChunkP (" -metadata TITLE=\"" ++ r) = false :=
      fun r => ssChunkP_false_lit _ _ (by decide)
    have e9 : ∀ r, ssChunkP (" -metadata TRACK=\"" ++ r) = false :=
      fun r => ssChunkP_false_lit _ _ (by decide)
    have e10 : ∀ r, ssChunkP (" -metadata GENRE=\"" ++ r) = false :=
      fun r => ssChunkP_false_lit _ _ (by decide)
    have e11 : ∀ r, ssChunkP (" -metadata DATE=\"" ++ r) = false :=
      fun r => ssChunkP_false_lit _ _ (by decide)
    have e12 : ∀ r, ssChunkP (" -metadata COMMENT=\"" ++ r) = false :=
      fun r => ssChunkP_false_lit _ _ (by decide)
    have e13 : ∀ r, ssChunkP (" -metadata DISCID=\"" ++ r) = false :=
      fun r => ssChunkP_false_lit _ _ (by decide)
    have e14 : ssChunkP (" -c:a " ++ codec) = false :=
      ssChunkP_false_lit _ _ (by decide)
    have e15 : ∀ r, ssChunkP (" \"" ++ r) = false :=
      fun r => ssChunkP_false_lit _ _ (by decide)
    cases he : t.END with
    | none =>
      simp [chunkList, he, List.countP_cons, e1, e2, e3, e4, e5, e6, e7,
        e8, e9, e10, e11, e12, e13, e14, e15, hss]
    | some e =>
      have eto : ssChunkP (" -to " ++ floatReprOfMicro (ffSecondsMicro e))
          = false := ssChunkP_false_lit _ _ (by decide)
      simp [chunkList, he, List.countP_cons, e1, e2, e3, e4, e5, e6, e7,
        e8, e9, e10, e11, e12, e13, e14, e15, eto, hss]
  case _ =>
    subst hch
    have f1 : toChunkP ("\"" ++ (kw.ffmpeg_url ++ "\" ")) = false :=
      toChunkP_false_lit _ _ (by decide)
    have f2 : toChunkP (" -loglevel " ++ kw.ffmpeg_loglevel) = false :=
      toChunkP_false_lit _ _ (by decide)
    have f3 : toChunkP (" " ++ meter) = false := by
      rcases metersMap_mem _ _ hm with h3 | h3 | h3 <;> subst h3 <;> decide
    have f4 : toChunkP (" -i \"" ++ (t.FILE ++ "\"")) = false :=
      toChunkP_false_lit _ _ (by decide)
    have f5 : toChunkP (" -ss " ++ floatReprOfMicro (ffSecondsMicro t.START))
        = false := toChunkP_false_lit _ _ (by decide)
    have f6 : ∀ r, toChunkP (" -metadata ARTIST=\"" ++ r) = false :=
      fun r => toChunkP_false_lit _ _ (by decide)
    have f7 : ∀ r, toChunkP (" -metadata ALBUM=\"" ++ r) = false :=
      fun r => toChunkP_false_lit _ _ (by decide)
    have f8 : ∀ r, toChunkP (" -metadata TITLE=\"" ++ r) = false :=
      fun r => toChunkP_false_lit _ _ (by decide)
    have f9 : ∀ r, toChunkP (" -metadata TRACK=\"" ++ r) = false :=
      fun r => toChunkP_false_lit _ _ (by decide)
    have f10 : ∀ r, toChunkP (" -metadata GENRE=\"" ++ r) = false :=
      fun r => toChunkP_false_lit _ _ (by decide)
    have f11 : ∀ r, toChunkP (" -metadata DATE=\"" ++ r) = false :=
      fun r => toChunkP_false_lit _ _ (by decide)
    have f12 : ∀ r, toChunkP (" -metadata COMMENT=\"" ++ r) = false :=
      fun r => toChunkP_false_lit _ _ (by decide)
    have f13 : ∀ r, toChunkP (" -metadata DISCID=\"" ++ r) = false :=
      fun r => toChunkP_false_lit _ _ (by decide)
    have f14 : toChunkP (" -c:a " ++ codec) = false :=
      toChunkP_false_lit _ _ (by decide)
    have f15 : ∀ r, toChunkP (" \"" ++ r) = false :=
      fun r => toChunkP_false_lit _ _ (by decide)
    cases he : t.END with
    | none =>
      simp [chunkList, he, List.any_cons, f1, f2, f3, f4, f5, f6, f7,
        f8, f9, f10, f11, f12, f13, f14, f15, hto]
    | some e =>
      have fto : toChunkP (" -to " ++ floatReprOfMicro (ffSecondsMicro e))
          = true := toChunkP_true_head _
      simp [chunkList, he, List.any_cons, f1, f2, f3, f4, f5, f6, f7,
        f8, f9, f10, f11, f12, f13, f14, f15, fto, hto]
  case _ =>
    rw [ffmpegTrackCmd, h]
    rfl

/-! ## Concrete example inputs used by witnesses and counterexamples -/

/-- A representative configuration (the CLI defaults plus a temp dir and
log file path). -/
def kwEx : Kwargs :=
  { ffmpeg_url := "ffmpeg", ffmpeg_loglevel := "warning",
    progress_meter := "tqdm", format := "flac", ffmpeg_add_params := "",
    tempdir := "/tmp/out", logtofile := "/tmp/ffcuesplitter.log",
    dry := false }

/-- A representative track descriptor: starts one second in, ends at two
seconds. -/
def tEx : Track :=
  { FILE := "album.flac", START := 44100, END := some 88200,
    TRACK_NUM := 1, DURATION := 10, TITLE := some "Song" }

/-- The fragment list the builder produces for `kwEx`/`tEx` in a
three-track album. -/
def chunksEx : List String :=
  (ffmpegTrackChunks kwEx tEx 3).toOption.getD []

/-- Witness for C4 at the concrete inputs `kwEx`, `tEx`. -/
theorem c4_ss_to_flags_witness :
    chunksEx.countP ssChunkP = 1
    ∧ (chunksEx.any toChunkP = true ↔ (tEx.END).isSome = true)
    ∧ ffmpegTrackCmd kwEx tEx 3 = .ok (String.join chunksEx) :=
  c4_ss_to_flags kwEx tEx 3 chunksEx rfl (by decide) (by decide)

/-- Claim C5: start and end offsets are converted from the 44100-per-second
sample unit to seconds by dividing by 44100 and rounding to 6 decimal
places — offset 44100 gives 1.0 s, offset 22050 gives 0.5 s — and this
conversion produces every `-ss` and `-to` value the builder emits. -/
theorem c5_sample_unit_conversion :
    ffSecondsQ 44100 = 1 ∧ ffSecondsQ 22050 = 1 / 2
    ∧ ∀ (kw : Kwargs) (t : Track) (total : Nat) (chunks : List String),
        ffmpegTrackChunks kw t total = .ok chunks →
        (" -ss " ++ floatReprOfMicro (ffSecondsMicro t.START)) ∈ chunks
        ∧ ∀ e, t.END = some e →
            (" -to " ++ floatReprOfMicro (ffSecondsMicro e)) ∈ chunks := by
  refine ⟨?_, ?_, ?_⟩
  · have h : ffSecondsMicro 44100 = 1000000 := by decide
    unfold ffSecondsQ
    rw [h]
    norm_num
  · have h : ffSecondsMicro 22050 = 500000 := by decide
    unfold ffSecondsQ
    rw [h]
    norm_num
  · intro kw t total chunks h
    obtain ⟨meter, codec, title, hm, hc, ht, hch⟩ :=
      ffmpegTrackChunks_ok kw t total chunks h
    subst hch
    constructor
    · cases he : t.END <;> simp [chunkList, he]
    · intro e he
      simp [chunkList, he]

/-- Witness for C5: the example track of `tEx` (START 44100, END 88200)
receives exactly the converted `-ss`/`-to` fragments. -/
theorem c5_sample_unit_conversion_witness :
    (" -ss " ++ floatReprOfMicro (ffSecondsMicro tEx.START)) ∈ chunksEx
    ∧ (" -to " ++ floatReprOfMicro (ffSecondsMicro 88200)) ∈ chunksEx :=
  ⟨(c5_sample_unit_conversion.2.2 kwEx tEx 3 chunksEx rfl).1,
   (c5_sample_unit_conversion.2.2 kwEx tEx 3 chunksEx rfl).2 88200 rfl⟩

/-- Claim C6 (amended): whenever the builder returns at all — which
requires the `TITLE` key to be present, because line 102 reads
`track["TITLE"]` with direct indexing for the output name — all eight
`-metadata` fragments are emitted, with absent-or-empty fields rendered
as an empty quoted value, and the `TRACK` value is always `N/total`. -/
theorem c6_metadata_always_emitted (kw : Kwargs) (t : Track) (total : Nat)
    (chunks : List String)
    (h : ffmpegTrackChunks kw t total = .ok chunks) :
    (" -metadata ARTIST=\"" ++ (t.ARTIST.getD "" ++ "\"")) ∈ chunks
    ∧ (" -metadata ALBUM=\"" ++ (t.ALBUM.getD "" ++ "\"")) ∈ chunks
    ∧ (" -metadata TITLE=\"" ++ (t.TITLE.getD "" ++ "\"")) ∈ chunks
    ∧ (" -metadata TRACK=\"" ++ (natReprStr t.TRACK_NUM ++ ("/"
        ++ (natReprStr total ++ "\"")))) ∈ chunks
    ∧ (" -metadata GENRE=\"" ++ (t.GENRE.getD "" ++ "\"")) ∈ chunks
    ∧ (" -metadata DATE=\"" ++ (t.DATE.getD "" ++ "\"")) ∈ chunks
    ∧ (" -metadata COMMENT=\"" ++ (t.COMMENT.getD "" ++ "\"")) ∈ chunks
    ∧ (" -metadata DISCID=\"" ++ (t.DISCID.getD "" ++ "\"")) ∈ chunks := by
  obtain ⟨meter, codec, title, hm, hc, ht, hch⟩ :=
    ffmpegTrackChunks_ok kw t total chunks h
  subst hch
  cases he : t.END <;> simp [chunkList, he]

/-- Counterexample for C6 as stated: a track whose `TITLE` key is absent
makes `ffmpeg_arguments` raise `KeyError` at the output-name synthesis of
line 102, so no `-metadata` argument is emitted at all for that track. -/
theorem c6_metadata_counterexample :
    ffmpegTrackChunks kwEx
      { FILE := "album.flac", START := 0, END := none, TRACK_NUM := 1,
        DURATION := 1 } 1 = .error ("KeyError", "TITLE") := rfl

/-- Witness for C6 (amended) at the concrete inputs `kwEx`, `tEx`. -/
theorem c6_metadata_always_emitted_witness :
    (" -metadata ARTIST=\"" ++ (tEx.ARTIST.getD "" ++ "\"")) ∈ chunksEx
    ∧ (" -metadata TRACK=\"" ++ (natReprStr tEx.TRACK_NUM ++ ("/"
        ++ (natReprStr 3 ++ "\"")))) ∈ chunksEx :=
  ⟨(c6_metadata_always_emitted kwEx tEx 3 chunksEx rfl).1,
   (c6_metadata_always_emitted kwEx tEx 3 chunksEx rfl).2.2.2.1⟩

/-- Claim C10: the codec table is defined exactly for `wav`, `flac`,
`ogg`, `mp3`; for any other format — including `wv` and `m4a`, which the
CLI accepts as `--format-type` choices — `ffmpeg_arguments` raises an
unhandled `KeyError` at the `DATACODECS` lookup (given that the earlier
`meters` lookup of line 92 succeeds). -/
theorem c10_codec_table_totality :
    (∀ f, (DATACODECS f).isSome = true
       ↔ (f = "wav" ∨ f = "flac" ∨ f = "ogg" ∨ f = "mp3"))
    ∧ (∀ (kw : Kwargs) (t : Track) (total : Nat),
        kw.format = "wv" → (metersMap kw.progress_meter).isSome = true →
        ffmpegTrackChunks kw t total = .error ("KeyError", "wv"))
    ∧ (∀ (kw : Kwargs) (t : Track) (total : Nat),
        kw.format = "m4a" → (metersMap kw.progress_meter).isSome = true →
        ffmpegTrackChunks kw t total = .error ("KeyError", "m4a"))
    ∧ "wv" ∈ cliFormatChoices ∧ "m4a" ∈ cliFormatChoices := by
  refine ⟨?_, ?_, ?_, ?_, ?_⟩
  · intro f
    unfold DATACODECS
    split_ifs <;> simp_all
  · intro kw t total hf hm
    unfold ffmpegTrackChunks
    cases hmm : metersMap kw.progress_meter with
    | none => rw [hmm] at hm; simp at hm
    | some m =>
      simp only [hmm, hf]
      rfl
  · intro kw t total hf hm
    unfold ffmpegTrackChunks
    cases hmm : metersMap kw.progress_meter with
    | none => rw [hmm] at hm; simp at hm
    | some m =>
      simp only [hmm, hf]
      rfl
  · simp [cliFormatChoices]
  · simp [cliFormatChoices]

/-- Witness for C10: with the CLI-accepted formats `wv` and `m4a` the
builder fails with `KeyError` on the codec lookup. -/
theorem c10_codec_table_totality_witness :
    ffmpegTrackChunks { kwEx with format := "wv" } tEx 1
      = .error ("KeyError", "wv")
    ∧ ffmpegTrackChunks { kwEx with format := "m4a" } tEx 1
      = .error ("KeyError", "m4a") :=
  ⟨c10_codec_table_totality.2.1 { kwEx with format := "wv" } tEx 1
     rfl (by decide),
   c10_codec_table_totality.2.2.1 { kwEx with format := "m4a" } tEx 1
     rfl (by decide)⟩

/-! ## Claims about the progress strategies -/

/-- Claim C1 (amended): in Strategy B each `out_time_ms` line is converted
to whole seconds (half-to-even) and `progbar.update` receives the raw
difference to the previous report — `1000000` then `3000000` gives the
delta sequence `1` then `2` — but the difference is passed through
unclamped, so a regressing stream produces a negative update rather than
zero. -/
theorem c1_tqdm_delta_sequence :
    tqdmUpdates ["out_time_ms=1000000", "out_time_ms=3000000"] 0
      = .ok [1, 2]
    ∧ ∀ (lines : List String) (prev : Int),
        tqdmUpdates lines prev = (parsedSeconds lines).map (diffsFrom prev) := by
  refine ⟨rfl, ?_⟩
  intro lines
  induction lines with
  | nil => intro prev; rfl
  | cons line rest ih =>
    intro prev
    by_cases hc : containsStr "out_time_ms" line = true
    · cases hs : (splitOnChar '=' line.data)[1]? with
      | none => simp [tqdmUpdates, parsedSeconds, hc, hs, Except.map]
      | some v =>
        cases hp : pyInt (String.mk v) with
        | none => simp [tqdmUpdates, parsedSeconds, hc, hs, hp, Except.map]
        | some ms =>
          simp only [tqdmUpdates, parsedSeconds, hc, hs, hp, if_true]
          rw [ih (roundHalfEvenZ ms 1000000)]
          cases hps : parsedSeconds rest with
          | error e => simp [hps, Except.map]
          | ok ss => simp [hps, diffsFrom, Except.map]
    · rw [tqdmUpdates, parsedSeconds, if_neg hc, if_neg hc]
      exact ih prev

/-- Counterexample for C1 as stated: a stream whose `out_time_ms` value
decreases (3000000 then 1000000) makes the loop pass the negative delta
`-2` to `progbar.update`; the code never replaces it by zero. -/
theorem c1_negative_delta_counterexample :
    tqdmUpdates ["out_time_ms=3000000", "out_time_ms=1000000"] 0
      = .ok [3, -2] ∧ (-2 : Int) < 0 :=
  ⟨rfl, by norm_num⟩

/-- Claim C7: with `dry` enabled, `processing` only prints the would-be
invocation with `msg(cmd)` and returns — it performs no log-file open, no
log write and no spawn — for each of the three progress strategies, for
any configuration, invocation and child behaviour. -/
theorem c7_dry_run_no_effects (kw : Kwargs) (arg : String)
    (so se : List String) (code : Nat) :
    processing { kw with dry := true, progress_meter := "tqdm" }
        arg so se code
      = { effects := [Effect.msgOut arg], err := none }
    ∧ processing { kw with dry := true, progress_meter := "mymet" }
        arg so se code
      = { effects := [Effect.msgOut arg], err := none }
    ∧ processing { kw with dry := true, progress_meter := "standard" }
        arg so se code
      = { effects := [Effect.msgOut arg], err := none } :=
  ⟨rfl, rfl, rfl⟩

/-- Claim C8 (amended): in `FFProbe.__init__` both failure paths raise the
same exception class `FFProbeError` — a non-zero exit carries
`'ffprobe FAILED: '` plus the captured stderr text, and a spawn failure
carries the `OSError` text — so they are distinguished by message, not by
a distinct exception kind. -/
theorem c8_probe_failure_paths (osText out err2 : String) (parse : Bool) :
    probeInit (.error osText) parse = .error ("FFProbeError", osText)
    ∧ probeInit (.ok (out, err2, 2)) parse
      = .error ("FFProbeError", "ffprobe FAILED: " ++ err2) :=
  ⟨rfl, rfl⟩

/-- Counterexample for C8 as stated: at concrete inputs, the spawn-failure
result and the exit-code-2 result carry the same exception class
(`FFProbeError`), refuting the claimed distinct `SpawnError` kind. -/
theorem c8_same_class_counterexample :
    errClassOf (probeInit
        (.error "[Errno 2] No such file or directory: 'ffprobe'") true)
      = some "FFProbeError"
    ∧ errClassOf (probeInit (.ok ("", "stream not found", 2)) true)
      = some "FFProbeError"
    ∧ errClassOf (probeInit
        (.error "[Errno 2] No such file or directory: 'ffprobe'") true)
      = errClassOf (probeInit (.ok ("", "stream not found", 2)) true) :=
  ⟨rfl, rfl, rfl⟩

/-! ## Containment facts about the failure messages -/

theorem containsStr_failMsg_log (log : String) (code : Nat) :
    containsStr log (failMsg log code) = true := by
  unfold containsStr failMsg
  simp only [strData_append, List.append_assoc]
  exact isInfxCL_sandwich _ _ _

theorem containsStr_failMsg_two (log : String) :
    containsStr "2" (failMsg log 2) = true := by
  unfold containsStr failMsg
  have h2 : natReprStr 2 = "2" := rfl
  rw [h2]
  simp only [strData_append, List.append_assoc]
  apply isInfxCL_append_left
  apply isInfxCL_append_left
  apply isInfxCL_append_left
  exact isInfxCL_of_pref _ _ (by decide)

theorem containsStr_cpe_two (cmdRepr : String) :
    containsStr "2" (calledProcErrStr cmdRepr 2) = true := by
  unfold containsStr calledProcErrStr
  have h2 : natReprStr 2 = "2" := rfl
  rw [h2]
  simp only [strData_append, List.append_assoc]
  apply isInfxCL_append_left
  apply isInfxCL_append_left
  apply isInfxCL_append_left
  exact isInfxCL_of_pref _ _ (by decide)

/-- Claim C2 (amended): on a child exit code of 2, the `mymet` and `tqdm`
strategies raise `FFMpegError` whose message contains both the log file
path and the code 2; the `standard` strategy raises `FFMpegError` wrapping
`CalledProcessError`, whose message contains the code 2 (and the command)
but not the log file path. -/
theorem c2_exit_code_two_failures (kw : Kwargs) (cmd cmdRepr : String)
    (seLines soLines : List String) (us : List Int) :
    ((mymetStrat kw cmd seLines 2).err
        = some ("FFMpegError", failMsg kw.logtofile 2)
      ∧ containsStr kw.logtofile (failMsg kw.logtofile 2) = true
      ∧ containsStr "2" (failMsg kw.logtofile 2) = true)
    ∧ (tqdmUpdates soLines 0 = .ok us →
        (tqdmStrat kw cmd soLines 2).err
          = some ("FFMpegError", failMsg kw.logtofile 2))
    ∧ ((standardStrat kw cmdRepr 2).err
        = some ("FFMpegError", "ffmpeg FAILED: " ++ calledProcErrStr cmdRepr 2)
      ∧ containsStr "2" (calledProcErrStr cmdRepr 2) = true) := by
  refine ⟨⟨rfl, containsStr_failMsg_log _ _, containsStr_failMsg_two _⟩,
    ?_, rfl, containsStr_cpe_two _⟩
  intro h
  simp only [tqdmStrat, h]
  rfl

/-- Counterexample for C2 as stated: with the `standard` strategy and a
concrete configuration, the `FFMpegError` message for exit code 2 does not
mention the log file path at all. -/
theorem c2_standard_no_log_counterexample :
    (standardStrat kwEx "ffmpeg -i album.flac out.flac" 2).err
      = some ("FFMpegError",
          "ffmpeg FAILED: Command 'ffmpeg -i album.flac out.flac'"
            ++ " returned non-zero exit status 2.")
    ∧ containsStr kwEx.logtofile
        ("ffmpeg FAILED: Command 'ffmpeg -i album.flac out.flac'"
          ++ " returned non-zero exit status 2.") = false := by
  constructor
  · rfl
  · decide

/-- Witness for C2 at concrete inputs, discharging the well-formed-stream
hypothesis of the tqdm branch. -/
theorem c2_exit_code_two_failures_witness :
    (tqdmStrat kwEx "cmd" ["out_time_ms=1000000"] 2).err
      = some ("FFMpegError", failMsg kwEx.logtofile 2) :=
  (c2_exit_code_two_failures kwEx "cmd" "cmd" [] ["out_time_ms=1000000"]
    [1]).2.1 rfl

/-! ## Lemmas about splitting on a separator -/

theorem splitOnChar_ne_nil (c : Char) (l : List Char) :
    splitOnChar c l ≠ [] := by
  cases l with
  | nil => simp [splitOnChar]
  | cons x xs =>
    simp only [splitOnChar]
    by_cases hx : x = c
    · simp [hx]
    · simp only [if_neg hx]
      cases splitOnChar c xs <;> simp

theorem splitOnChar_no_sep (c : Char) (l : List Char) (h : c ∉ l) :
    splitOnChar c l = [l] := by
  induction l with
  | nil => rfl
  | cons x xs ih =>
    have hx : ¬ (x = c) := fun hh => h (by simp [hh])
    have hxs : c ∉ xs := fun hh => h (List.mem_cons_of_mem _ hh)
    simp [splitOnChar, if_neg hx, ih hxs]

theorem splitOnChar_cons_sep (c : Char) (l : List Char) :
    splitOnChar c (c :: l) = [] :: splitOnChar c l := by
  simp [splitOnChar]

theorem splitOnChar_append_no_sep (c : Char) (a : List Char)
    (h : c ∉ a) (rest : List Char) :
    splitOnChar c (a ++ rest)
      = (a ++ (splitOnChar c rest).headD []) :: (splitOnChar c rest).tail := by
  induction a with
  | nil =>
    simp only [List.nil_append]
    cases hsr : splitOnChar c rest with
    | nil => exact absurd hsr (splitOnChar_ne_nil c rest)
    | cons y ys => simp
  | cons x xs ih =>
    have hx : ¬ (x = c) := fun hh => h (by simp [hh])
    have hxs : c ∉ xs := fun hh => h (List.mem_cons_of_mem _ hh)
    simp [splitOnChar, if_neg hx, ih hxs]

theorem splitOnChar_second_field (k v w : List Char)
    (hk : '=' ∉ k) (hv : '=' ∉ v) (hw : '=' ∉ w) :
    (splitOnChar '=' (k ++ '=' :: (v ++ '=' :: w)))[1]? = some v := by
  rw [splitOnChar_append_no_sep '=' k hk]
  rw [splitOnChar_cons_sep]
  rw [splitOnChar_append_no_sep '=' v hv]
  rw [splitOnChar_cons_sep]
  rw [splitOnChar_no_sep '=' w hw]
  simp

/-- Claim C3 (amended): the key-value extraction of `data_format` splits
each line on every `=` and returns element 1 of the pieces — the segment
between the first and the second `=`, not the whole remainder — so
`TAG:comment=a=b` gives `a`; and a matching line with no `=` raises
`IndexError` instead of being dropped.  The last conjunct is the general
fact behind the first: for any line `k=v=w` (no `=` inside the parts) the
extracted value is exactly the middle segment `v`. -/
theorem c3_value_between_first_two_eq (k v w : List Char)
    (hk : '=' ∉ k) (hv : '=' ∉ v) (hw : '=' ∉ w) :
    (data_format (parserFF "[FORMAT]\nTAG:comment=a=b\n[/FORMAT]\n")
        (some "comment")).1 = .ok (.inl "a")
    ∧ (data_format (parserFF "[FORMAT]\nplainline\n[/FORMAT]\n")
        (some "plain")).1
      = .error ("IndexError", "list index out of range")
    ∧ (splitOnChar '=' (k ++ '=' :: (v ++ '=' :: w)))[1]? = some v :=
  ⟨rfl, rfl, splitOnChar_second_field k v w hk hv hw⟩

/-- Counterexample for C3 as stated: for the line `TAG:comment=a=b` the
probe lookup returns `a`, not the remainder `a=b` after the first `=`. -/
theorem c3_not_first_split_counterexample :
    (data_format (parserFF "[FORMAT]\nTAG:comment=a=b\n[/FORMAT]\n")
        (some "comment")).1 = .ok (.inl "a")
    ∧ ("a" : String) ≠ "a=b" :=
  ⟨rfl, by decide⟩

/-- Witness for C3 (amended) at the line `TAG:comment=a=b`. -/
theorem c3_value_between_first_two_eq_witness :
    (splitOnChar '='
        ("TAG:comment".data ++ '=' :: ("a".data ++ '=' :: "b".data)))[1]?
      = some "a".data :=
  (c3_value_between_first_two_eq "TAG:comment".data "a".data "b".data
    (by decide) (by decide) (by decide)).2.2

/-! ## Lemmas about the accumulating probe accessors -/

theorem callsVideo_len (k : Nat) (st : FFProbeSt) :
    ((callsVideo k st).video).length
      = st.video.length
        + k * ((st.mediastreams.filter
            (fun ds => ds.contains "codec_type=video")).length) := by
  induction k generalizing st with
  | zero => simp [callsVideo]
  | succ k ih =>
    rw [callsVideo, ih]
    simp [video_stream]
    ring

theorem callsAudio_len (k : Nat) (st : FFProbeSt) :
    ((callsAudio k st).audio).length
      = st.audio.length
        + k * ((st.mediastreams.filter
            (fun ds => ds.contains "codec_type=audio")).length) := by
  induction k generalizing st with
  | zero => simp [callsAudio]
  | succ k ih =>
    rw [callsAudio, ih]
    simp [audio_stream]
    ring

theorem callsSubtitle_len (k : Nat) (st : FFProbeSt) :
    ((callsSubtitle k st).subtitle).length
      = st.subtitle.length
        + k * ((st.mediastreams.filter
            (fun ds => ds.contains "codec_type=subtitle")).length) := by
  induction k generalizing st with
  | zero => simp [callsSubtitle]
  | succ k ih =>
    rw [callsSubtitle, ih]
    simp [subtitle_stream]
    ring

theorem callsFmt_len (k : Nat) (st : FFProbeSt) :
    ((callsFmt k st).fmt).length
      = st.fmt.length + k * st.mediaformat.length := by
  induction k generalizing st with
  | zero => simp [callsFmt]
  | succ k ih =>
    rw [callsFmt, ih]
    simp [data_format]
    ring

/-- Claim C9: the accessors are not idempotent — each call re-appends
every matching record to the per-object accumulator it then returns, so
after `k` calls on a freshly parsed object the accumulator holds `k * n`
records, where `n` is the number of matching records of the parsed
report.  The final four conjuncts record that each accessor returns
exactly its updated accumulator, so the `k`-th call returns the `k * n`
element list. -/
theorem c9_accessors_accumulate (out : String) (k : Nat) :
    ((callsVideo k (parserFF out)).video).length
      = k * (((parserFF out).mediastreams.filter
          (fun ds => ds.contains "codec_type=video")).length)
    ∧ ((callsAudio k (parserFF out)).audio).length
      = k * (((parserFF out).mediastreams.filter
          (fun ds => ds.contains "codec_type=audio")).length)
    ∧ ((callsSubtitle k (parserFF out)).subtitle).length
      = k * (((parserFF out).mediastreams.filter
          (fun ds => ds.contains "codec_type=subtitle")).length)
    ∧ ((callsFmt k (parserFF out)).fmt).length
      = k * ((parserFF out).mediaformat).length
    ∧ (∀ st, (video_stream st).1 = ((video_stream st).2).video)
    ∧ (∀ st, (audio_stream st).1 = ((audio_stream st).2).audio)
    ∧ (∀ st, (subtitle_stream st).1 = ((subtitle_stream st).2).subtitle)
    ∧ (∀ st, (data_format st none).1
        = .ok (.inr (((data_format st none).2).fmt))) := by
  refine ⟨?_, ?_, ?_, ?_, fun st => rfl, fun st => rfl, fun st => rfl,
    fun st => rfl⟩
  · rw [callsVideo_len]
    have hv : (parserFF out).video = [] := rfl
    rw [hv]
    simp
  · rw [callsAudio_len]
    have ha : (parserFF out).audio = [] := rfl
    rw [ha]
    simp
  · rw [callsSubtitle_len]
    have hs : (parserFF out).subtitle = [] := rfl
    rw [hs]
    simp
  · rw [callsFmt_len]
    have hf : (parserFF out).fmt = [] := rfl
    rw [hf]
    simp
